import Mathlib

/-
Shallow embedding of the unity-lsp gateway (src/main.go): a minimal LSP
adapter that relays completion requests to an OmniSharp HTTP backend.
Stateless Go functions become Lean functions; the HTTP round trip is an
explicit transport oracle passed to each call; Go error returns become
Except values; the issued HTTP requests are threaded explicitly as a log
so that statements can count them.
-/

namespace UnityLsp

/-- JSON value tree. Go works on raw bytes and parses them with the
standard library; a body that fails to parse is represented by
Body.malformed below, a body that parses is a Json tree. Numbers are
modelled as integers, which covers every value the claims touch. -/
inductive Json where
  | null : Json
  | bool (b : Bool) : Json
  | num (n : Int) : Json
  | str (s : String) : Json
  | arr (xs : List Json) : Json
  | obj (fields : List (String × Json)) : Json

/-- Error taxonomy of the spec, standing in for the opaque Go error
values: transport covers connection and round-trip failures reported by
the HTTP client, decode covers every json.Unmarshal failure. -/
inductive GoError where
  | transport : GoError
  | decode : GoError
deriving DecidableEq

/-- Raw bytes of an HTTP response body, as json.Unmarshal sees them:
either they parse to a Json value or they are not valid JSON. -/
inductive Body where
  | malformed : Body
  | json (j : Json) : Body

/-- The outgoing HTTP request built by SendRequest (src/main.go lines
119-131): method, URL, content type and the marshalled JSON payload. -/
structure HttpRequest where
  method : String
  url : String
  contentType : String
  body : Json

/-- An HTTP response: status code and raw body bytes. -/
structure HttpResponse where
  statusCode : Nat
  body : Body

/-- Transport oracle standing in for the network plus the Go http.Client:
given the request it either fails (connection refused, read failure, ...)
or yields a response. -/
def Http := HttpRequest → Except GoError HttpResponse

/-- OmniSharpClient (src/main.go lines 107-110). The inner http.Client is
modelled by the transport oracle passed to each call. -/
structure OmniSharpClient where
  baseURL : String

/-- The request value SendRequest constructs with http.NewRequest and the
Content-Type header it sets (src/main.go lines 125-130). -/
def buildHttpRequest (o : OmniSharpClient) (endpoint : String) (request : Json) : HttpRequest :=
  { method := "POST", url := o.baseURL ++ endpoint,
    contentType := "application/json", body := request }

/-- SendRequest (src/main.go lines 119-139): marshal the payload, POST it
to baseURL persisted with the endpoint, and on success return the raw
response body, never looking at the status code. The second component
logs the HTTP requests issued, threading the side effect explicitly.
Marshalling of the completion payload map cannot fail in Go (plain ints
and a string), so no marshal error case arises. -/
def OmniSharpClient.SendRequest (o : OmniSharpClient) (http : Http) (endpoint : String)
    (request : Json) : Except GoError Body × List HttpRequest :=
  match http (buildHttpRequest o endpoint request) with
  | Except.error e => (Except.error e, [buildHttpRequest o endpoint request])
  | Except.ok resp => (Except.ok resp.body, [buildHttpRequest o endpoint request])

/-- LSP completion item kinds, by their protocol numbers as in the
go.lsp.dev protocol package. -/
abbrev CompletionItemKind := Nat

/-- Protocol number of the generic text kind. -/
def CompletionItemKindText : CompletionItemKind := 1

/-- Protocol number of the method kind. -/
def CompletionItemKindMethod : CompletionItemKind := 2

/-- Protocol number of the field kind. -/
def CompletionItemKindField : CompletionItemKind := 5

/-- Protocol number of the class kind. -/
def CompletionItemKindClass : CompletionItemKind := 7

/-- Protocol number of the property kind. -/
def CompletionItemKindProperty : CompletionItemKind := 10

/-- convertKind (src/main.go lines 192-205): Go switch on the backend
kind tag, written as the equivalent chain of equality tests; the default
branch yields the generic text kind. -/
def convertKind (omnisharpKind : String) : CompletionItemKind :=
  if omnisharpKind = "Method" then CompletionItemKindMethod
  else if omnisharpKind = "Property" then CompletionItemKindProperty
  else if omnisharpKind = "Field" then CompletionItemKindField
  else if omnisharpKind = "Class" then CompletionItemKindClass
  else CompletionItemKindText

/-- A backend completion candidate, the anonymous struct of
handleCompletion (src/main.go lines 163-168). -/
structure Candidate where
  CompletionText : String
  DisplayText : String
  Documentation : String
  Kind : String
deriving DecidableEq

/-- An outgoing LSP completion item, with the four fields the gateway
populates (src/main.go lines 177-182). -/
structure CompletionItem where
  label : String
  detail : String
  kind : CompletionItemKind
  insertText : String
deriving DecidableEq

/-- The completion list returned to the editor (src/main.go lines
185-188). -/
structure CompletionList where
  isIncomplete : Bool
  items : List CompletionItem
deriving DecidableEq

/-- Loop body of handleCompletion (src/main.go lines 176-183): one
candidate becomes one item, label from DisplayText, detail from
Documentation, kind through convertKind, insert text from
CompletionText. -/
def candidateToItem (item : Candidate) : CompletionItem :=
  { label := item.DisplayText, detail := item.Documentation,
    kind := convertKind item.Kind, insertText := item.CompletionText }

/-- JSON object shape of one candidate in the backend HTTP contract,
with the field names of the json tags in src/main.go lines 163-168. -/
def candidateJson (c : Candidate) : Json :=
  Json.obj [("CompletionText", Json.str c.CompletionText),
            ("DisplayText", Json.str c.DisplayText),
            ("Documentation", Json.str c.Documentation),
            ("Kind", Json.str c.Kind)]

/-- Field lookup in a decoded JSON object. -/
def lookupField : List (String × Json) → String → Option Json
  | [], _ => none
  | (k, v) :: rest, key => if k = key then some v else lookupField rest key

/-- String struct field decoding as json.Unmarshal does it: a missing key
or a JSON null leaves the Go zero value, a string is taken as is, any
other value is a type error. The field list is reversed first because a
later duplicate key overwrites an earlier one in the Go decoder. -/
def getStringField (fields : List (String × Json)) (key : String) : Except GoError String :=
  match lookupField (List.reverse fields) key with
  | none => Except.ok ""
  | some Json.null => Except.ok ""
  | some (Json.str s) => Except.ok s
  | some _ => Except.error GoError.decode

/-- Decoding of one element of the candidate array: JSON null leaves the
zero-valued struct, an object fills the four string fields, anything
else is a type error, as json.Unmarshal behaves on the anonymous struct
of src/main.go lines 163-168. -/
def unmarshalCandidate (j : Json) : Except GoError Candidate :=
  match j with
  | Json.null => Except.ok { CompletionText := "", DisplayText := "", Documentation := "", Kind := "" }
  | Json.obj fields =>
    match getStringField fields ("CompletionText") with
    | Except.error e => Except.error e
    | Except.ok ct =>
      match getStringField fields ("DisplayText") with
      | Except.error e => Except.error e
      | Except.ok dt =>
        match getStringField fields ("Documentation") with
        | Except.error e => Except.error e
        | Except.ok doc =>
          match getStringField fields ("Kind") with
          | Except.error e => Except.error e
          | Except.ok k =>
            Except.ok { CompletionText := ct, DisplayText := dt, Documentation := doc, Kind := k }
  | _ => Except.error GoError.decode

/-- Elementwise decoding of the candidate array, failing on the first bad
element as json.Unmarshal reports an error for the slice. -/
def unmarshalCandidateList : List Json → Except GoError (List Candidate)
  | [] => Except.ok []
  | j :: js =>
    match unmarshalCandidate j with
    | Except.error e => Except.error e
    | Except.ok c =>
      match unmarshalCandidateList js with
      | Except.error e => Except.error e
      | Except.ok cs => Except.ok (c :: cs)

/-- json.Unmarshal of the response body into the candidate slice
(src/main.go line 170): a malformed body is an error, a JSON array is
decoded elementwise, the JSON literal null leaves the slice nil without
an error (documented json.Unmarshal behaviour for slices), and every
other JSON value is a type error. -/
def unmarshalCandidates : Body → Except GoError (List Candidate)
  | Body.malformed => Except.error GoError.decode
  | Body.json Json.null => Except.ok []
  | Body.json (Json.arr xs) => unmarshalCandidateList xs
  | Body.json _ => Except.error GoError.decode

/-- LSP position: line and character, uint32 in the protocol package,
modelled as Nat. -/
structure Position where
  line : Nat
  character : Nat
deriving DecidableEq

/-- The text document identifier carried by completion params. -/
structure TextDocumentIdentifier where
  uri : String
deriving DecidableEq

/-- protocol.CompletionParams, restricted to the fields the gateway
reads (src/main.go lines 151-154). -/
structure CompletionParams where
  textDocument : TextDocumentIdentifier
  position : Position
deriving DecidableEq

/-- Models the URI to file path conversion of the external go.lsp.dev
uri package used at src/main.go line 154: on a plain file URI it strips
the scheme. The claims do not depend on its internals. -/
def uriFilename (u : String) : String :=
  if String.startsWith u ("file://") then String.drop u 7 else u

/-- The omnisharpRequest map built by handleCompletion (src/main.go
lines 151-155) as Go marshals it: a string-keyed map serializes with its
keys in sorted order. -/
def completionRequestPayload (params : CompletionParams) : Json :=
  Json.obj [("Column", Json.num (params.position.character : Int)),
            ("FileName", Json.str (uriFilename params.textDocument.uri)),
            ("Line", Json.num (params.position.line : Int))]

/-- The one HTTP request a completion issues: POST of the payload to the
autocomplete endpoint. -/
def completionHttpRequest (o : OmniSharpClient) (params : CompletionParams) : HttpRequest :=
  buildHttpRequest o ("/autocomplete") (completionRequestPayload params)

/-- handleCompletion (src/main.go lines 149-189) with the backend client
in hand: build the payload, send it, decode the candidate array, map it
to items, and return the list with isIncomplete false. Any SendRequest
or decode failure is returned as the error of this request. -/
def handleCompletion (o : OmniSharpClient) (http : Http) (params : CompletionParams) :
    Except GoError CompletionList × List HttpRequest :=
  match OmniSharpClient.SendRequest o http ("/autocomplete") (completionRequestPayload params) with
  | (Except.error e, log) => (Except.error e, log)
  | (Except.ok response, log) =>
    match unmarshalCandidates response with
    | Except.error e => (Except.error e, log)
    | Except.ok omnisharpResponse =>
      (Except.ok { isIncomplete := false, items := List.map candidateToItem omnisharpResponse }, log)

/-- Nat struct field decoding for the uint32 protocol fields: missing or
null leaves zero, an in-range number is taken, a negative or too large
number or a non-number is a type error, as json.Unmarshal reports for
uint32 targets. -/
def getNatField (fields : List (String × Json)) (key : String) : Except GoError Nat :=
  match lookupField (List.reverse fields) key with
  | none => Except.ok 0
  | some Json.null => Except.ok 0
  | some (Json.num n) =>
    if 0 ≤ n ∧ n < 4294967296 then Except.ok (Int.toNat n) else Except.error GoError.decode
  | some _ => Except.error GoError.decode

/-- Int struct field decoding for the int32 protocol fields, with the
same missing and null conventions. -/
def getIntField (fields : List (String × Json)) (key : String) : Except GoError Int :=
  match lookupField (List.reverse fields) key with
  | none => Except.ok 0
  | some Json.null => Except.ok 0
  | some (Json.num n) =>
    if -2147483648 ≤ n ∧ n < 2147483648 then Except.ok n else Except.error GoError.decode
  | some _ => Except.error GoError.decode

/-- Decoding of a position object from request params. -/
def unmarshalPosition (j : Json) : Except GoError Position :=
  match j with
  | Json.null => Except.ok { line := 0, character := 0 }
  | Json.obj fields =>
    match getNatField fields ("line") with
    | Except.error e => Except.error e
    | Except.ok l =>
      match getNatField fields ("character") with
      | Except.error e => Except.error e
      | Except.ok c => Except.ok { line := l, character := c }
  | _ => Except.error GoError.decode

/-- Decoding of a text document identifier from request params. -/
def unmarshalTextDocumentIdentifier (j : Json) : Except GoError TextDocumentIdentifier :=
  match j with
  | Json.null => Except.ok { uri := "" }
  | Json.obj fields =>
    match getStringField fields ("uri") with
    | Except.error e => Except.error e
    | Except.ok u => Except.ok { uri := u }
  | _ => Except.error GoError.decode

/-- Struct-valued field decoding: a missing key leaves the zero value of
the nested struct, a present value runs the nested decoder. -/
def getStructField {α : Type} (fields : List (String × Json)) (key : String)
    (dec : Json → Except GoError α) (dflt : α) : Except GoError α :=
  match lookupField (List.reverse fields) key with
  | none => Except.ok dflt
  | some v => dec v

/-- UnmarshalTo of the raw params into protocol.CompletionParams
(src/main.go lines 47-50), restricted to the fields the gateway reads. -/
def unmarshalCompletionParams (j : Json) : Except GoError CompletionParams :=
  match j with
  | Json.null =>
    Except.ok { textDocument := { uri := "" }, position := { line := 0, character := 0 } }
  | Json.obj fields =>
    match getStructField fields ("textDocument") unmarshalTextDocumentIdentifier { uri := "" } with
    | Except.error e => Except.error e
    | Except.ok td =>
      match getStructField fields ("position") unmarshalPosition { line := 0, character := 0 } with
      | Except.error e => Except.error e
      | Except.ok pos => Except.ok { textDocument := td, position := pos }
  | _ => Except.error GoError.decode

/-- protocol.InitializeParams, restricted to two representative fields;
the gateway never reads any of them. -/
structure InitializeParams where
  processID : Int
  rootURI : String
deriving DecidableEq

/-- UnmarshalTo of the raw params into protocol.InitializeParams
(src/main.go lines 40-43). -/
def unmarshalInitializeParams (j : Json) : Except GoError InitializeParams :=
  match j with
  | Json.null => Except.ok { processID := 0, rootURI := "" }
  | Json.obj fields =>
    match getIntField fields ("processId") with
    | Except.error e => Except.error e
    | Except.ok pid =>
      match getStringField fields ("rootUri") with
      | Except.error e => Except.error e
      | Except.ok root => Except.ok { processID := pid, rootURI := root }
  | _ => Except.error GoError.decode

/-- Completion capabilities advertised at startup (src/main.go lines
61-63). -/
structure CompletionOptions where
  triggerCharacters : List String
deriving DecidableEq

/-- Document sync kinds by their protocol numbers; Full is 1. -/
abbrev TextDocumentSyncKind := Nat

/-- Protocol number of full document sync. -/
def TextDocumentSyncKindFull : TextDocumentSyncKind := 1

/-- Document sync capabilities advertised at startup (src/main.go lines
64-67). -/
structure TextDocumentSyncOptions where
  change : TextDocumentSyncKind
  openClose : Bool
deriving DecidableEq

/-- Server capabilities of the initialize result (src/main.go lines
60-68). -/
structure ServerCapabilities where
  completionProvider : CompletionOptions
  textDocumentSync : TextDocumentSyncOptions
deriving DecidableEq

/-- The initialize result (src/main.go lines 59-69). -/
structure InitializeResult where
  capabilities : ServerCapabilities
deriving DecidableEq

/-- The fixed initialize result the gateway always returns, for use in
statements. -/
def initResultValue : InitializeResult :=
  { capabilities :=
    { completionProvider := { triggerCharacters := [".", " "] },
      textDocumentSync := { change := TextDocumentSyncKindFull, openClose := true } } }

/-- The Server (src/main.go lines 141-146); the RPC connection and
client handles play no part in the claims, the omnisharp pointer does:
none models a nil pointer. -/
structure Server where
  omnisharp : Option OmniSharpClient

/-- main (src/main.go lines 100-105) constructs the server as the Go
zero value, leaving the omnisharp pointer nil; no code path assigns it
afterwards. -/
def mainServer : Server := { omnisharp := none }

/-- handleInitialize (src/main.go lines 58-70): the receiver and the
params are ignored and the fixed capability descriptor is returned with
a nil error. -/
def Server.handleInitialize (_ : Server) (_ : InitializeParams) : Except GoError InitializeResult :=
  Except.ok
    { capabilities :=
      { completionProvider := { triggerCharacters := [".", " "] },
        textDocumentSync := { change := TextDocumentSyncKindFull, openClose := true } } }

/-- Outcome of one completion call on the server, separating the Go
runtime panic raised when the nil omnisharp pointer is dereferenced at
src/main.go line 157 from ordinary error and success returns. -/
inductive CompletionOutcome where
  | nilPanic : CompletionOutcome
  | err (e : GoError) : CompletionOutcome
  | ok (l : CompletionList) : CompletionOutcome

/-- handleCompletion as invoked on the server value: with a nil omnisharp
pointer the o.baseURL dereference inside SendRequest panics before any
HTTP request is issued; with a live client it runs handleCompletion. -/
def Server.handleCompletionRun (s : Server) (http : Http) (params : CompletionParams) :
    CompletionOutcome × List HttpRequest :=
  match s.omnisharp with
  | none => (CompletionOutcome.nilPanic, [])
  | some o =>
    match handleCompletion o http params with
    | (Except.error e, log) => (CompletionOutcome.err e, log)
    | (Except.ok l, log) => (CompletionOutcome.ok l, log)

/-- Method name constant of the protocol package, value of
protocol.MethodInitialize. -/
def MethodInitialize : String := "initialize"

/-- Method name constant of the protocol package, value of
protocol.MethodTextDocumentCompletion. -/
def MethodTextDocumentCompletion : String := "textDocument/completion"

/-- One incoming RPC request: method name and raw params, the params
already framed as JSON by the RPC library. -/
structure Request where
  method : String
  params : Json

/-- A value passed to the replier: either handler result. -/
inductive ReplyValue where
  | initResult (r : InitializeResult) : ReplyValue
  | completionList (l : CompletionList) : ReplyValue

/-- What one dispatch of handle does: replied carries the result and
error handed to the replier (a non-nil error becomes a request-level
error response); errored is an unmarshal error returned without
replying; panicked is the nil-pointer runtime panic; noop is the default
branch that falls through to return nil. -/
inductive HandleOutcome where
  | replied (result : Option ReplyValue) (e : Option GoError) : HandleOutcome
  | errored (e : GoError) : HandleOutcome
  | panicked : HandleOutcome
  | noop : HandleOutcome

/-- handle (src/main.go lines 37-55): switch on the method name, decode
the params for the two supported methods and reply with the handler
result; every other method falls through and returns nil without
replying. -/
def Server.handle (s : Server) (http : Http) (req : Request) : HandleOutcome :=
  if req.method = MethodInitialize then
    match unmarshalInitializeParams req.params with
    | Except.error e => HandleOutcome.errored e
    | Except.ok params =>
      match Server.handleInitialize s params with
      | Except.error e => HandleOutcome.replied none (some e)
      | Except.ok result => HandleOutcome.replied (some (ReplyValue.initResult result)) none
  else if req.method = MethodTextDocumentCompletion then
    match unmarshalCompletionParams req.params with
    | Except.error e => HandleOutcome.errored e
    | Except.ok params =>
      match Server.handleCompletionRun s http params with
      | (CompletionOutcome.nilPanic, _) => HandleOutcome.panicked
      | (CompletionOutcome.err e, _) => HandleOutcome.replied none (some e)
      | (CompletionOutcome.ok l, _) => HandleOutcome.replied (some (ReplyValue.completionList l)) none
  else
    HandleOutcome.noop

/-- Modelled from the spec: the receive loop that frames messages and
dispatches each one (section 4.1 start and failure semantics) lives in
the go.lsp.dev jsonrpc2 library, not in src/; per the spec a handler
error terminates only that single exchange, so the loop is the
independent dispatch of each message, each with the transport state it
sees at that moment. -/
def Server.serve (s : Server) (msgs : List (Http × Request)) : List HandleOutcome :=
  List.map (fun m => Server.handle s m.1 m.2) msgs

/-- Reverse kind mapping defined for test purposes on the four named
kinds, as the round-trip property of the spec (section 8) calls for. -/
def inverseKind (k : CompletionItemKind) : Option String :=
  if k = CompletionItemKindMethod then some ("Method")
  else if k = CompletionItemKindProperty then some ("Property")
  else if k = CompletionItemKindField then some ("Field")
  else if k = CompletionItemKindClass then some ("Class")
  else none

/-- Bodies on which the candidate decoder reports an error: everything
except a JSON array and the JSON literal null. -/
def bodyNotArrayOrNull : Body → Bool
  | Body.malformed => true
  | Body.json Json.null => false
  | Body.json (Json.arr _) => false
  | Body.json _ => true

/-- Stub backend candidate of the spec scenario (section 8). -/
def stubCandidate : Candidate :=
  { CompletionText := "Bar", DisplayText := "Bar()", Documentation := "doc", Kind := "Method" }

/-- Stub client with an arbitrary base URL. -/
def stubClient : OmniSharpClient := { baseURL := "http://localhost:2000" }

/-- Stub completion params of the spec scenario: line 10, column 4, a
file URI for Foo.cs. -/
def stubParams : CompletionParams :=
  { textDocument := { uri := "file:///projects/Foo.cs" },
    position := { line := 10, character := 4 } }

/-- The stub params as raw request JSON. -/
def stubParamsJson : Json :=
  Json.obj [("textDocument", Json.obj [("uri", Json.str ("file:///projects/Foo.cs"))]),
            ("position", Json.obj [("line", Json.num 10), ("character", Json.num 4)])]

/-- Transport oracle of the stub scenario: every request gets the
one-candidate array. -/
def stubHttpBar : Http :=
  fun _ => Except.ok { statusCode := 200, body := Body.json (Json.arr [candidateJson stubCandidate]) }

/-- Transport oracle with the backend unreachable. -/
def httpDown : Http := fun _ => Except.error GoError.transport

/-- Transport oracle answering with the JSON literal null as body. -/
def httpNullBody : Http :=
  fun _ => Except.ok { statusCode := 200, body := Body.json Json.null }

/-- Transport oracle answering with a JSON string as body. -/
def httpStrBody : Http :=
  fun _ => Except.ok { statusCode := 200, body := Body.json (Json.str ("nonsense")) }

/-- Transport oracle answering 500 with an unparsable body. -/
def http500 : Http :=
  fun _ => Except.ok { statusCode := 500, body := Body.malformed }

/-- A server wired to the stub client, as the completion path expects. -/
def srvStub : Server := { omnisharp := some stubClient }

/-- An initialize request with empty params. -/
def initReq : Request := { method := MethodInitialize, params := Json.null }

/-- A request with a method the gateway does not handle. -/
def shutdownReq : Request := { method := "shutdown", params := Json.null }

/-- Decoding one encoded candidate object gives the candidate back. -/
theorem unmarshalCandidate_candidateJson (c : Candidate) :
    unmarshalCandidate (candidateJson c) = Except.ok c := rfl

/-- Decoding an encoded candidate array gives the candidates back. -/
theorem unmarshalCandidateList_map_candidateJson (cs : List Candidate) :
    unmarshalCandidateList (List.map candidateJson cs) = Except.ok cs := by
  induction cs with
  | nil => rfl
  | cons c rest ih =>
    rw [List.map_cons]
    simp [unmarshalCandidateList, unmarshalCandidate_candidateJson, ih]

/-- SendRequest issues exactly the one request it builds, whatever the
transport answers. -/
theorem SendRequest_log (o : OmniSharpClient) (http : Http) (endpoint : String) (request : Json) :
    (OmniSharpClient.SendRequest o http endpoint request).2 =
      [buildHttpRequest o endpoint request] := by
  unfold OmniSharpClient.SendRequest
  cases http (buildHttpRequest o endpoint request) <;> rfl

/-- handleCompletion issues exactly the requests of its one SendRequest
call. -/
theorem handleCompletion_log (o : OmniSharpClient) (http : Http) (params : CompletionParams) :
    (handleCompletion o http params).2 =
      (OmniSharpClient.SendRequest o http ("/autocomplete") (completionRequestPayload params)).2 := by
  unfold handleCompletion
  split
  next e log heq => rw [heq]
  next response log heq =>
    rw [heq]
    cases unmarshalCandidates response <;> rfl

/-- On a body that is neither a JSON array nor the JSON literal null the
candidate decoder reports a decode error. -/
theorem unmarshalCandidates_bad (b : Body) (h : bodyNotArrayOrNull b = true) :
    unmarshalCandidates b = Except.error GoError.decode := by
  cases b with
  | malformed => rfl
  | json j =>
    cases j with
    | null => exact nomatch h
    | arr xs => exact nomatch h
    | bool v => rfl
    | num n => rfl
    | str s => rfl
    | obj fields => rfl

/-- C1: for a backend response that is a JSON array of candidates,
handleCompletion returns a list with one item per candidate in the same
order, isIncomplete false, and each item carries the candidate fields:
label from DisplayText, detail from Documentation, insert text from
CompletionText and kind through convertKind. -/
theorem handleCompletion_maps_candidates
    (o : OmniSharpClient) (http : Http) (params : CompletionParams)
    (cs : List Candidate) (status : Nat)
    (hb : ∀ r, http r = Except.ok
      { statusCode := status, body := Body.json (Json.arr (List.map candidateJson cs)) }) :
    (handleCompletion o http params).1 =
      Except.ok { isIncomplete := false, items := List.map candidateToItem cs } ∧
    (List.map candidateToItem cs).length = cs.length ∧
    ∀ c : Candidate, candidateToItem c =
      { label := c.DisplayText, detail := c.Documentation,
        kind := convertKind c.Kind, insertText := c.CompletionText } := by
  refine ⟨?_, by simp, fun c => rfl⟩
  unfold handleCompletion OmniSharpClient.SendRequest
  rw [hb]
  simp [unmarshalCandidates, unmarshalCandidateList_map_candidateJson]

/-- C1 witness: the stub backend response with the one Bar candidate
yields exactly one item with label, detail, insert text and kind as the
spec scenario states, and isIncomplete false. -/
theorem handleCompletion_maps_candidates_witness :
    (handleCompletion stubClient stubHttpBar stubParams).1 =
      Except.ok { isIncomplete := false,
                  items := [{ label := "Bar()", detail := "doc",
                              kind := CompletionItemKindMethod, insertText := "Bar" }] } :=
  (handleCompletion_maps_candidates stubClient stubHttpBar stubParams [stubCandidate] 200
    (fun _ => rfl)).1

/-- C2: convertKind maps the four named tags to their kinds and every
other string to the generic text kind; being a total Lean function it is
defined on all strings. -/
theorem convertKind_total (s : String) :
    convertKind ("Method") = CompletionItemKindMethod ∧
    convertKind ("Property") = CompletionItemKindProperty ∧
    convertKind ("Field") = CompletionItemKindField ∧
    convertKind ("Class") = CompletionItemKindClass ∧
    (s ≠ ("Method") → s ≠ ("Property") → s ≠ ("Field") → s ≠ ("Class") →
      convertKind s = CompletionItemKindText) := by
  refine ⟨rfl, rfl, rfl, rfl, fun h1 h2 h3 h4 => ?_⟩
  simp [convertKind, h1, h2, h3, h4]

/-- C2 witness: a recognized and an unrecognized tag, evaluated
concretely. -/
theorem convertKind_total_witness :
    convertKind ("Method") = CompletionItemKindMethod ∧
    convertKind ("Delegate") = CompletionItemKindText :=
  ⟨(convertKind_total ("Delegate")).1,
   (convertKind_total ("Delegate")).2.2.2.2 (by decide) (by decide) (by decide) (by decide)⟩

/-- C3: the server main constructs has a nil omnisharp pointer, and with
it every completion call panics on the nil dereference before any HTTP
request is issued, for every transport state and every params value. -/
theorem mainServer_completion_nilPanic (http : Http) (params : CompletionParams) :
    mainServer.omnisharp = none ∧
    Server.handleCompletionRun mainServer http params = (CompletionOutcome.nilPanic, []) :=
  ⟨rfl, rfl⟩

/-- C4: with the backend unreachable the completion handler fails with
the transport error, the dispatch of that request becomes a
request-level error reply, and every earlier and later message in the
stream is served exactly as it would be on its own. -/
theorem transportError_isolated_per_request
    (s : Server) (o : OmniSharpClient) (hs : s.omnisharp = some o)
    (badHttp : Http) (hfail : ∀ r, badHttp r = Except.error GoError.transport)
    (p : Json) (cp : CompletionParams) (hp : unmarshalCompletionParams p = Except.ok cp)
    (pre post : List (Http × Request)) :
    (handleCompletion o badHttp cp).1 = Except.error GoError.transport ∧
    Server.serve s (pre ++ (badHttp, { method := MethodTextDocumentCompletion, params := p }) :: post) =
      Server.serve s pre ++
        HandleOutcome.replied none (some GoError.transport) :: Server.serve s post := by
  have hm : MethodTextDocumentCompletion ≠ MethodInitialize := by decide
  have h1full : handleCompletion o badHttp cp =
      (Except.error GoError.transport, [completionHttpRequest o cp]) := by
    unfold handleCompletion OmniSharpClient.SendRequest
    rw [hfail]
    rfl
  refine ⟨by rw [h1full], ?_⟩
  have h2 : Server.handle s badHttp { method := MethodTextDocumentCompletion, params := p } =
      HandleOutcome.replied none (some GoError.transport) := by
    simp [Server.handle, hm, hp, Server.handleCompletionRun, hs, h1full]
  simp [Server.serve, h2]

/-- C4 witness: a two-message stream whose first completion hits a dead
backend and whose second message is served normally. -/
theorem transportError_isolated_witness :
    (handleCompletion stubClient httpDown stubParams).1 = Except.error GoError.transport ∧
    Server.serve srvStub
      [(httpDown, { method := MethodTextDocumentCompletion, params := stubParamsJson }),
       (stubHttpBar, initReq)] =
      [HandleOutcome.replied none (some GoError.transport),
       HandleOutcome.replied (some (ReplyValue.initResult initResultValue)) none] := by
  have h := transportError_isolated_per_request srvStub stubClient rfl httpDown (fun _ => rfl)
    stubParamsJson stubParams rfl [] [(stubHttpBar, initReq)]
  exact ⟨h.1, h.2⟩

/-- C5 counterexample: the JSON literal null is valid JSON and not a
JSON array, yet the candidate decoder leaves the slice nil without an
error, so the completion handler succeeds with an empty list instead of
failing with a decode error. -/
theorem completion_null_body_succeeds :
    (handleCompletion stubClient httpNullBody stubParams).1 =
      Except.ok { isIncomplete := false, items := [] } ∧
    (handleCompletion stubClient httpNullBody stubParams).1 ≠ Except.error GoError.decode ∧
    (handleCompletion stubClient httpNullBody stubParams).1 ≠ Except.error GoError.transport :=
  ⟨rfl, fun h => (nomatch h), fun h => (nomatch h)⟩

/-- C5 as amended: on a body that is malformed JSON, or valid JSON that
is neither an array nor the literal null, the completion handler fails
with the decode error and the dispatch turns it into a request-level
error reply, neither panicking nor dropping the message. -/
theorem decodeError_on_invalid_body
    (s : Server) (o : OmniSharpClient) (hs : s.omnisharp = some o)
    (http : Http) (status : Nat) (b : Body)
    (hb : ∀ r, http r = Except.ok { statusCode := status, body := b })
    (hbad : bodyNotArrayOrNull b = true)
    (p : Json) (cp : CompletionParams) (hp : unmarshalCompletionParams p = Except.ok cp) :
    (handleCompletion o http cp).1 = Except.error GoError.decode ∧
    Server.handle s http { method := MethodTextDocumentCompletion, params := p } =
      HandleOutcome.replied none (some GoError.decode) := by
  have hm : MethodTextDocumentCompletion ≠ MethodInitialize := by decide
  have h1full : handleCompletion o http cp =
      (Except.error GoError.decode, [completionHttpRequest o cp]) := by
    unfold handleCompletion OmniSharpClient.SendRequest
    rw [hb]
    simp [unmarshalCandidates_bad b hbad]
    rfl
  refine ⟨by rw [h1full], ?_⟩
  simp [Server.handle, hm, hp, Server.handleCompletionRun, hs, h1full]

/-- C5 witness: a backend answering with the JSON string body, decoded
params from the stub request JSON. -/
theorem decodeError_on_invalid_body_witness :
    (handleCompletion stubClient httpStrBody stubParams).1 = Except.error GoError.decode ∧
    Server.handle srvStub httpStrBody
      { method := MethodTextDocumentCompletion, params := stubParamsJson } =
      HandleOutcome.replied none (some GoError.decode) :=
  decodeError_on_invalid_body srvStub stubClient rfl httpStrBody 200
    (Body.json (Json.str ("nonsense"))) (fun _ => rfl) rfl stubParamsJson stubParams rfl

/-- C6: for every server state and every params value, handleInitialize
returns the same fixed result with a nil error: trigger characters
exactly dot and space, document sync change Full and openClose true. -/
theorem handleInitialize_fixed (s : Server) (p : InitializeParams) :
    Server.handleInitialize s p = Except.ok initResultValue ∧
    initResultValue.capabilities.completionProvider.triggerCharacters = [".", " "] ∧
    initResultValue.capabilities.textDocumentSync.change = TextDocumentSyncKindFull ∧
    initResultValue.capabilities.textDocumentSync.openClose = true :=
  ⟨rfl, rfl, rfl, rfl⟩

/-- C7: a message whose method is neither of the two handled ones makes
handle fall through to the default branch: no reply, no error, no
panic. -/
theorem handle_unknown_method_noop (s : Server) (http : Http) (req : Request)
    (h1 : req.method ≠ MethodInitialize) (h2 : req.method ≠ MethodTextDocumentCompletion) :
    Server.handle s http req = HandleOutcome.noop := by
  simp [Server.handle, h1, h2]

/-- C7 witness: a shutdown request is silently ignored. -/
theorem handle_unknown_method_noop_witness :
    Server.handle mainServer stubHttpBar shutdownReq = HandleOutcome.noop :=
  handle_unknown_method_noop mainServer stubHttpBar shutdownReq (by decide) (by decide)

/-- C8: one completion issues exactly one HTTP request, the POST of the
Line, Column and FileName payload to the autocomplete endpoint with the
JSON content type, and on any successful round trip SendRequest returns
the full raw response body. -/
theorem completion_single_post_request (o : OmniSharpClient) (http : Http) (params : CompletionParams) :
    (handleCompletion o http params).2 = [completionHttpRequest o params] ∧
    completionHttpRequest o params =
      { method := "POST", url := o.baseURL ++ ("/autocomplete"),
        contentType := "application/json",
        body := Json.obj [("Column", Json.num (params.position.character : Int)),
                          ("FileName", Json.str (uriFilename params.textDocument.uri)),
                          ("Line", Json.num (params.position.line : Int))] } ∧
    ∀ status b,
      http (completionHttpRequest o params) = Except.ok { statusCode := status, body := b } →
      (OmniSharpClient.SendRequest o http ("/autocomplete") (completionRequestPayload params)).1 =
        Except.ok b := by
  refine ⟨?_, rfl, fun status b h => ?_⟩
  · rw [handleCompletion_log, SendRequest_log]
    rfl
  · unfold completionHttpRequest at h
    unfold OmniSharpClient.SendRequest
    rw [h]

/-- C8 witness: the stub scenario issues the one expected request and
SendRequest hands back the stub body unchanged. -/
theorem completion_single_post_request_witness :
    (handleCompletion stubClient stubHttpBar stubParams).2 =
      [completionHttpRequest stubClient stubParams] ∧
    (OmniSharpClient.SendRequest stubClient stubHttpBar ("/autocomplete")
        (completionRequestPayload stubParams)).1 =
      Except.ok (Body.json (Json.arr [candidateJson stubCandidate])) :=
  ⟨(completion_single_post_request stubClient stubHttpBar stubParams).1,
   (completion_single_post_request stubClient stubHttpBar stubParams).2.2 200
     (Body.json (Json.arr [candidateJson stubCandidate])) rfl⟩

/-- C9: for a candidate whose tag is one of the four mapped ones,
converting to an item and applying the reverse test mapping to its kind
gives the original tag back. -/
theorem kind_roundtrip (c : Candidate)
    (h : c.Kind ∈ (["Method", "Property", "Field", "Class"] : List String)) :
    inverseKind ((candidateToItem c).kind) = some c.Kind := by
  have hk : (candidateToItem c).kind = convertKind c.Kind := rfl
  rw [hk]
  simp only [List.mem_cons, List.mem_singleton, List.not_mem_nil, or_false] at h
  rcases h with h | h | h | h <;> rw [h] <;> decide

/-- C9 witness: the Method tag round-trips. -/
theorem kind_roundtrip_witness :
    inverseKind ((candidateToItem stubCandidate).kind) = some ("Method") :=
  kind_roundtrip stubCandidate (by decide)

/-- C10: SendRequest returns the response body as a success for every
status code the backend answers with; the status is never inspected. -/
theorem sendRequest_ignores_status (o : OmniSharpClient) (http : Http) (endpoint : String)
    (request : Json) (status : Nat) (b : Body)
    (h : http (buildHttpRequest o endpoint request) =
      Except.ok { statusCode := status, body := b }) :
    (OmniSharpClient.SendRequest o http endpoint request).1 = Except.ok b := by
  unfold OmniSharpClient.SendRequest
  rw [h]

/-- C10 witness: a 500 answer with an unparsable body is still returned
as a success by SendRequest. -/
theorem sendRequest_ignores_status_witness :
    (OmniSharpClient.SendRequest stubClient http500 ("/autocomplete") Json.null).1 =
      Except.ok Body.malformed :=
  sendRequest_ignores_status stubClient http500 ("/autocomplete") Json.null 500 Body.malformed rfl

end UnityLsp
